import Mathlib

/-!
# Launchr — verification of the bonding-curve core

Shallow embedding of the Launchr Solana program
(`src/program/programs/launchr/src`).  Machine integers are modelled as
`Nat` with explicit `% 2^64` (resp. `% 2^128`) where the Rust code performs
an `as u64` / overflowing cast, and with explicit saturation for
`saturating_add` / `saturating_sub` (Rust `uN.saturating_sub` coincides with
truncated `Nat` subtraction).  u128 multiplications that can overflow are
modelled with wrap-around (`% 2^128`), the release-mode semantics used
on-chain.  Fallible instructions are modelled as `Except`-valued state
transformers: an error result carries no post-state, which is exactly the
all-or-nothing transaction semantics of the host runtime.
-/

namespace Launchr

/-- Constant `2^64`, the modulus of `u64` arithmetic. -/
def U64 : Nat := 18446744073709551616

/-- Constant `2^128`, the modulus of `u128` arithmetic. -/
def U128 : Nat := 340282366920938463463374607431768211456

/-- Rust `u64::saturating_add`. -/
def satAdd64 (a b : Nat) : Nat := min (a + b) (U64 - 1)

/-- Rust `u32::saturating_add`. -/
def satAdd32 (a b : Nat) : Nat := min (a + b) (4294967295)

/-- Rust `u128::saturating_add`. -/
def satAdd128 (a b : Nat) : Nat := min (a + b) (U128 - 1)

/-- Absolute difference `|a - b|` on `Nat`; models `(a as i128 - b as i128).unsigned_abs()`
for operands below `2^64` (where the `i128` subtraction cannot overflow). -/
def absDiff (a b : Nat) : Nat := max a b - min a b

/-- Interpret the low `w` bits `x` (a value in `[0, 2^w)`) as a signed
two's-complement integer. -/
def toSigned (w : Nat) (x : Nat) : Int :=
  if x < 2 ^ (w - 1) then (x : Int) else (x : Int) - 2 ^ w

/-- Low `w` bits of an integer, as used by Rust `as uN` / `as iN` casts. -/
def lowBits (w : Nat) (x : Int) : Nat := (Int.emod x (2 ^ w)).toNat

/-- Rust `as i64` cast of a wider signed value. -/
def castI64 (x : Int) : Int := toSigned 64 (lowBits 64 x)

/-- Rust `as i32` cast of a wider signed value. -/
def wrap32 (x : Int) : Int := toSigned 32 (lowBits 32 x)

/-! ## `math/bonding_curve.rs` — the curve engine -/

/-- Constant `PRICE_PRECISION`: price scale factor (1e9). -/
def PRICE_PRECISION : Nat := 1000000000

/-- Constant `BPS_DENOMINATOR`. -/
def BPS_DENOMINATOR : Nat := 10000

/-- Constant `MIN_TRADE_AMOUNT` (1000 lamports). -/
def MIN_TRADE_AMOUNT : Nat := 1000

/-- The error codes of `LaunchrError` that the modelled paths can produce. -/
inductive LaunchrError where
  | TradeTooSmall
  | InvalidReserves
  | InsufficientOutput
  | InsufficientLiquidity
  | InvalidAmount
  | SlippageExceeded
  | LaunchNotActive
  | AlreadyGraduated
  | ThresholdNotReached
  | TradingPaused
  | MathOverflow
  | InsufficientGraduationFunds
  deriving DecidableEq

/-- Structure `SwapResult` from `bonding_curve.rs`. -/
structure SwapResult where
  amount_out : Nat
  protocol_fee : Nat
  creator_fee : Nat
  total_fee : Nat
  new_sol_reserve : Nat
  new_token_reserve : Nat
  price_after : Nat
  price_impact_bps : Nat
  deriving DecidableEq

instance {ε α : Type} [DecidableEq ε] [DecidableEq α] : DecidableEq (Except ε α)
  | .error a, .error b =>
    if h : a = b then .isTrue (by rw [h]) else .isFalse (fun hh => h (Except.error.inj hh))
  | .error _, .ok _ => .isFalse Except.noConfusion
  | .ok _, .error _ => .isFalse Except.noConfusion
  | .ok a, .ok b =>
    if h : a = b then .isTrue (by rw [h]) else .isFalse (fun hh => h (Except.ok.inj hh))

/-- Function `calculate_price`: lamports per token scaled by `PRICE_PRECISION`,
computed in u128 and cast back to u64. -/
def calculate_price (sol_reserve token_reserve : Nat) : Nat :=
  if token_reserve = 0 then 0
  else (sol_reserve * PRICE_PRECISION / token_reserve) % U64

/-- Function `calculate_buy`: tokens received for a SOL input. -/
def calculate_buy (sol_in sol_reserve token_reserve protocol_fee_bps creator_fee_bps : Nat) :
    Except LaunchrError SwapResult :=
  if sol_in < MIN_TRADE_AMOUNT then .error .TradeTooSmall
  else if ¬ (0 < sol_reserve ∧ 0 < token_reserve) then .error .InvalidReserves
  else
    let total_fee := (sol_in * protocol_fee_bps / BPS_DENOMINATOR) % U64
    let creator_fee := (sol_in * creator_fee_bps / BPS_DENOMINATOR) % U64
    let protocol_fee := total_fee - creator_fee
    let sol_in_after_fee := sol_in - total_fee
    if sol_in_after_fee = 0 then .error .TradeTooSmall
    else
      let k := sol_reserve * token_reserve
      let new_sol_reserve := satAdd64 sol_reserve sol_in_after_fee
      let new_token_reserve := (k / new_sol_reserve) % U64
      let tokens_out := token_reserve - new_token_reserve
      if tokens_out = 0 then .error .InsufficientOutput
      else if ¬ tokens_out ≤ token_reserve then .error .InsufficientLiquidity
      else
        let price_after := calculate_price new_sol_reserve new_token_reserve
        let price_before := calculate_price sol_reserve token_reserve
        let price_impact_bps :=
          if 0 < price_before then
            (absDiff price_after price_before * BPS_DENOMINATOR / price_before) % U64
          else 0
        .ok { amount_out := tokens_out, protocol_fee := protocol_fee,
              creator_fee := creator_fee, total_fee := total_fee,
              new_sol_reserve := new_sol_reserve,
              new_token_reserve := new_token_reserve,
              price_after := price_after, price_impact_bps := price_impact_bps }

/-- Function `calculate_sell`: SOL received for a token input (fees taken from the
output). -/
def calculate_sell (tokens_in sol_reserve token_reserve protocol_fee_bps creator_fee_bps : Nat) :
    Except LaunchrError SwapResult :=
  if tokens_in = 0 then .error .TradeTooSmall
  else if ¬ (0 < sol_reserve ∧ 0 < token_reserve) then .error .InvalidReserves
  else
    let k := sol_reserve * token_reserve
    let new_token_reserve := satAdd64 token_reserve tokens_in
    let new_sol_reserve := (k / new_token_reserve) % U64
    let sol_out_before_fee := sol_reserve - new_sol_reserve
    if sol_out_before_fee = 0 then .error .InsufficientOutput
    else if ¬ sol_out_before_fee ≤ sol_reserve then .error .InsufficientLiquidity
    else
      let total_fee := (sol_out_before_fee * protocol_fee_bps / BPS_DENOMINATOR) % U64
      let creator_fee := (sol_out_before_fee * creator_fee_bps / BPS_DENOMINATOR) % U64
      let protocol_fee := total_fee - creator_fee
      let sol_out := sol_out_before_fee - total_fee
      if sol_out < MIN_TRADE_AMOUNT then .error .TradeTooSmall
      else
        let price_after := calculate_price new_sol_reserve new_token_reserve
        let price_before := calculate_price sol_reserve token_reserve
        let price_impact_bps :=
          if 0 < price_before then
            (absDiff price_before price_after * BPS_DENOMINATOR / price_before) % U64
          else 0
        .ok { amount_out := sol_out, protocol_fee := protocol_fee,
              creator_fee := creator_fee, total_fee := total_fee,
              new_sol_reserve := new_sol_reserve,
              new_token_reserve := new_token_reserve,
              price_after := price_after, price_impact_bps := price_impact_bps }

/-! ## `state/launch.rs` — the launch record and its bookkeeping

Identity fields (`mint`, `creator`) and the fixed-size metadata byte
buffers are not touched by any modelled operation and are omitted;
`orbit_pool` (a `Pubkey`) is modelled as an opaque `Nat` identifier. -/

/-- Enum `LaunchStatus`. -/
inductive LaunchStatus where
  | Active
  | PendingGraduation
  | Graduated
  | Cancelled
  deriving DecidableEq

/-- The mutable numeric/state fields of `Launch`. -/
structure Launch where
  status : LaunchStatus
  total_supply : Nat
  tokens_sold : Nat
  graduation_tokens : Nat
  creator_tokens : Nat
  virtual_sol_reserve : Nat
  virtual_token_reserve : Nat
  real_sol_reserve : Nat
  real_token_reserve : Nat
  graduation_threshold : Nat
  created_at : Int
  graduated_at : Int
  buy_volume : Nat
  sell_volume : Nat
  trade_count : Nat
  holder_count : Nat
  orbit_pool : Nat
  creator_fee_bps : Nat
  deriving DecidableEq

namespace Launch

/-- Method `Launch::is_tradeable`. -/
def is_tradeable (l : Launch) : Prop := l.status = LaunchStatus.Active

instance (l : Launch) : Decidable l.is_tradeable := by
  unfold is_tradeable; infer_instance

/-- Method `Launch::can_graduate`. -/
def can_graduate (l : Launch) : Prop :=
  l.status = LaunchStatus.Active ∨ l.status = LaunchStatus.PendingGraduation

instance (l : Launch) : Decidable l.can_graduate := by
  unfold can_graduate; infer_instance

/-- Method `Launch::threshold_reached`. -/
def threshold_reached (l : Launch) : Prop :=
  l.graduation_threshold ≤ l.real_sol_reserve

instance (l : Launch) : Decidable l.threshold_reached := by
  unfold threshold_reached; infer_instance

/-- Method `Launch::current_price`. -/
def current_price (l : Launch) : Nat :=
  if l.virtual_token_reserve = 0 then 0
  else (l.virtual_sol_reserve * 1000000000 / l.virtual_token_reserve) % U64

/-- Method `Launch::record_buy`: reserve/statistics updates followed by the
graduation-threshold check (performed only while still `Active`). -/
def record_buy (l : Launch) (tokens_out sol_in : Nat) : Launch :=
  let l' := { l with
    tokens_sold := satAdd64 l.tokens_sold tokens_out
    real_sol_reserve := satAdd64 l.real_sol_reserve sol_in
    real_token_reserve := l.real_token_reserve - tokens_out
    buy_volume := satAdd128 l.buy_volume sol_in
    trade_count := satAdd64 l.trade_count 1
    virtual_sol_reserve := satAdd64 l.virtual_sol_reserve sol_in
    virtual_token_reserve := l.virtual_token_reserve - tokens_out }
  if l'.threshold_reached ∧ l'.status = LaunchStatus.Active then
    { l' with status := LaunchStatus.PendingGraduation }
  else l'

/-- Method `Launch::record_sell` (the two-argument method of `state/launch.rs`). -/
def record_sell (l : Launch) (tokens_in sol_out : Nat) : Launch :=
  { l with
    tokens_sold := l.tokens_sold - tokens_in
    real_sol_reserve := l.real_sol_reserve - sol_out
    real_token_reserve := satAdd64 l.real_token_reserve tokens_in
    sell_volume := satAdd128 l.sell_volume sol_out
    trade_count := satAdd64 l.trade_count 1
    virtual_sol_reserve := l.virtual_sol_reserve - sol_out
    virtual_token_reserve := satAdd64 l.virtual_token_reserve tokens_in }

/-- Method `Launch::graduate`. -/
def graduate (l : Launch) (orbit_pool : Nat) (timestamp : Int) : Launch :=
  { l with status := LaunchStatus.Graduated, orbit_pool := orbit_pool,
           graduated_at := timestamp }

end Launch

/-- Constants of `graduation` from `state/launch.rs`. -/
def LP_SOL_LAMPORTS : Nat := 80000000000
def CREATOR_REWARD_LAMPORTS : Nat := 2000000000
def TREASURY_FEE_LAMPORTS : Nat := 3000000000
def GRADUATION_THRESHOLD : Nat := 85000000000

/-! ## `state/config.rs` — the fields consumed by trading

Only the fields read by the modelled instructions are kept (admin keys,
mints and global statistics are not consulted by the trade/graduation
math). -/

structure Config where
  protocol_fee_bps : Nat
  trading_paused : Bool
  graduation_threshold : Nat
  deriving DecidableEq

/-! ## `state/user_position.rs` — per-user position ledger -/

structure UserPosition where
  tokens_bought : Nat
  tokens_sold : Nat
  token_balance : Nat
  sol_spent : Nat
  sol_received : Nat
  first_trade_at : Int
  last_trade_at : Int
  buy_count : Nat
  sell_count : Nat
  avg_buy_price : Nat
  cost_basis : Nat
  deriving DecidableEq

namespace UserPosition

/-- Method `UserPosition::is_new`. -/
def is_new (p : UserPosition) : Prop := p.buy_count = 0 ∧ p.sell_count = 0

instance (p : UserPosition) : Decidable p.is_new := by
  unfold is_new; infer_instance

/-- Method `UserPosition::init` (key/bump assignments are not modelled). -/
def init (p : UserPosition) (timestamp : Int) : UserPosition :=
  { p with first_trade_at := timestamp, last_trade_at := timestamp }

/-- Method `UserPosition::record_buy`. -/
def record_buy (p : UserPosition) (tokens sol_amount : Nat) (timestamp : Int) :
    UserPosition :=
  let tokens_bought := satAdd64 p.tokens_bought tokens
  let token_balance := satAdd64 p.token_balance tokens
  let sol_spent := satAdd64 p.sol_spent sol_amount
  let cost_basis := satAdd64 p.cost_basis sol_amount
  let avg_buy_price :=
    if 0 < token_balance then (cost_basis * 1000000000 / token_balance) % U64
    else p.avg_buy_price
  { p with tokens_bought := tokens_bought, token_balance := token_balance,
           sol_spent := sol_spent, cost_basis := cost_basis,
           avg_buy_price := avg_buy_price,
           buy_count := satAdd32 p.buy_count 1, last_trade_at := timestamp }

/-- Method `UserPosition::record_sell`: totals are updated with saturating
arithmetic, the cost basis is reduced via the `u128` ratio
`tokens * 1e9 / tokens_bought`, and the average price is recomputed from
the residual balance (or zeroed). -/
def record_sell (p : UserPosition) (tokens sol_amount : Nat) (timestamp : Int) :
    UserPosition :=
  let tokens_sold := satAdd64 p.tokens_sold tokens
  let token_balance := p.token_balance - tokens
  let sol_received := satAdd64 p.sol_received sol_amount
  let cost_basis :=
    if 0 < p.tokens_bought then
      let sold_share := tokens * 1000000000 / p.tokens_bought
      let cost_reduction := (p.cost_basis * sold_share / 1000000000) % U64
      p.cost_basis - cost_reduction
    else p.cost_basis
  let avg_buy_price :=
    if 0 < token_balance then (cost_basis * 1000000000 / token_balance) % U64
    else 0
  { p with tokens_sold := tokens_sold, token_balance := token_balance,
           sol_received := sol_received, cost_basis := cost_basis,
           avg_buy_price := avg_buy_price,
           sell_count := satAdd32 p.sell_count 1, last_trade_at := timestamp }

end UserPosition

/-! ## `instructions/buy.rs`, `instructions/sell.rs`, `instructions/graduate.rs`

Each instruction is a state transformer returning `Except`: the Anchor
account constraints are evaluated first (in account order), then the
handler body.  An `error` result models the aborted transaction — no
account is mutated. -/

/-- Constant `CURVE_VAULT_RENT_MINIMUM` from `sell.rs`. -/
def CURVE_VAULT_RENT_MINIMUM : Nat := 890880

/-- The `buy` instruction: constraint checks, quote, slippage and
liquidity checks, then the launch/position/statistics updates.  The SOL
credited to the curve vault is `sol_amount` minus both fee transfers. -/
def buyStep (cfg : Config) (l : Launch) (p : UserPosition)
    (sol_amount min_tokens_out : Nat) (now : Int) :
    Except LaunchrError (Launch × UserPosition × SwapResult) :=
  if cfg.trading_paused then .error .TradingPaused
  else if ¬ l.is_tradeable then .error .LaunchNotActive
  else
    match calculate_buy sol_amount l.virtual_sol_reserve l.virtual_token_reserve
        cfg.protocol_fee_bps l.creator_fee_bps with
    | .error e => .error e
    | .ok r =>
      if r.amount_out < min_tokens_out then .error .SlippageExceeded
      else if ¬ r.amount_out ≤ l.real_token_reserve then .error .InsufficientLiquidity
      else
        let sol_to_vault := sol_amount - r.protocol_fee - r.creator_fee
        let l' := (l.record_buy r.amount_out sol_to_vault)
        let l'' := if p.is_new then { l' with holder_count := satAdd32 l'.holder_count 1 }
                   else l'
        let p' := (if p.is_new then p.init now else p).record_buy r.amount_out sol_amount now
        .ok (l'', p', r)

/-- The `sell` instruction up to and including the state updates.
`seller_balance` is the seller's SPL token balance and `vault_lamports`
the curve vault's SOL balance (external account state read by the
handler). -/
def sellStep (cfg : Config) (l : Launch) (p : UserPosition)
    (seller_balance vault_lamports token_amount min_sol_out : Nat) (now : Int) :
    Except LaunchrError (Launch × UserPosition × SwapResult) :=
  if cfg.trading_paused then .error .TradingPaused
  else if ¬ l.is_tradeable then .error .LaunchNotActive
  else if seller_balance < token_amount then .error .InsufficientLiquidity
  else
    match calculate_sell token_amount l.virtual_sol_reserve l.virtual_token_reserve
        cfg.protocol_fee_bps l.creator_fee_bps with
    | .error e => .error e
    | .ok r =>
      if r.amount_out < min_sol_out then .error .SlippageExceeded
      else if U64 ≤ r.amount_out + r.protocol_fee + r.creator_fee then .error .MathOverflow
      else
        let total_sol_needed := r.amount_out + r.protocol_fee + r.creator_fee
        if vault_lamports < satAdd64 total_sol_needed CURVE_VAULT_RENT_MINIMUM then
          .error .InsufficientLiquidity
        else
          let l' := l.record_sell token_amount r.amount_out
          let p' := p.record_sell token_amount r.amount_out now
          .ok (l', p', r)

/-- The `graduate` instruction: the two launch account constraints
(`can_graduate`, `threshold_reached`, in declaration order), the
graduation-funds check, and the state update; returns the new launch
together with the three payout amounts `(creator, treasury, lp)` taken
from the curve vault.  The CPI calls into the external liquidity venue
are outside the modelled core. -/
def graduateStep (l : Launch) (vault_lamports orbit_pool : Nat) (now : Int) :
    Except LaunchrError (Launch × Nat × Nat × Nat) :=
  if ¬ l.can_graduate then .error .AlreadyGraduated
  else if ¬ l.threshold_reached then .error .ThresholdNotReached
  else if vault_lamports < GRADUATION_THRESHOLD then .error .InsufficientGraduationFunds
  else
    let lp_sol_amount := vault_lamports - CREATOR_REWARD_LAMPORTS - TREASURY_FEE_LAMPORTS
    .ok (l.graduate orbit_pool now,
         CREATOR_REWARD_LAMPORTS, TREASURY_FEE_LAMPORTS, lp_sol_amount)

/-! ## `math/orbit_math.rs` — fixed-point bin math

u128 arithmetic is modelled with wrap-around (`% 2^128`) on the
multiplications that can overflow, and the `u32` subtraction
`127 - leading_zeros` with wrap-around modulo `2^32` — the release-mode
(on-chain) semantics of the Rust source. -/

/-- Constant `Q64_64 = 2^64`. -/
def Q64_64 : Nat := 18446744073709551616

/-- Value of `ln(2)` in Q64.64 (`LN_2_Q64` in `integer_ln_positive`). -/
def LN_2_Q64 : Nat := 12786308645202655660

/-- Number of binary digits of `v` (position of the highest set bit,
plus one); `128 - bitlen128 v` is `u128::leading_zeros`.  Implemented
with structural fuel (128 suffices for any `u128`). -/
def bitlenAux : Nat → Nat → Nat
  | 0, _ => 0
  | fuel + 1, v => if v = 0 then 0 else bitlenAux fuel (v / 2) + 1

/-- Bit length of a `u128` value. -/
def bitlen128 (v : Nat) : Nat := bitlenAux 128 v

/-- Function `integer_ln_positive`: `ln(x) ≈ (bit_position - 64) * ln 2` where
`bit_position = 127 - leading_zeros(x)` (computed with `u32`
wrap-around). -/
def integer_ln_positive (value : Nat) : Nat :=
  let leading_zeros := 128 - bitlen128 value
  let bit_position := (127 + 4294967296 - leading_zeros) % 4294967296
  if 64 ≤ bit_position then ((bit_position - 64) * LN_2_Q64) % U128
  else 0

/-- Function `integer_ln`: signed log; for `value ≤ 1.0` it uses
`-ln(Q64² / value)` — note that `Q64_64 * Q64_64` wraps to `0` in u128,
so the computed inverse is `0 / value = 0`. -/
def integer_ln (value : Nat) : Int :=
  if value ≤ Q64_64 then
    let inverse := ((Q64_64 * Q64_64) % U128) / value
    Neg.neg (toSigned 128 (integer_ln_positive inverse))
  else (toSigned 128 (integer_ln_positive value))

/-- Function `integer_ln_step`: the first-order approximation
`ln(1 + step) ≈ step`, scaled to Q64.64. -/
def integer_ln_step (bin_step_bps : Nat) : Nat :=
  Q64_64 * bin_step_bps / 10000

/-- The iteration of `pow_q64` (square-and-multiply with Q64.64
rescaling; products wrap modulo `2^128`).  Structural fuel: 128
halvings zero any `u128` exponent. -/
def powQ64Aux : Nat → Nat → Nat → Nat → Nat
  | 0, result, _, _ => result
  | fuel + 1, result, b, e =>
    if e = 0 then result
    else
      powQ64Aux fuel
        (if e % 2 = 1 then ((result * b) % U128) / Q64_64 else result)
        (((b * b) % U128) / Q64_64)
        (e / 2)

/-- Function `pow_q64`. -/
def pow_q64 (base exp : Nat) : Nat :=
  if exp = 0 then Q64_64
  else if exp = 1 then base
  else powQ64Aux 128 Q64_64 base exp

/-- Function `price_to_bin_index`: `bin_index = ln(price) / ln(1 + bin_step)`,
with the Rust `as i64` casts and truncating `i64` division, then an
`as i32` cast of the quotient. -/
def price_to_bin_index (price_q64_64 : Nat) (bin_step_bps : Nat) : Int :=
  if price_q64_64 = 0 then -2147483648
  else
    let ln_price := integer_ln price_q64_64
    let ln_step := integer_ln_step bin_step_bps
    if ln_step = 0 then 0
    else wrap32 (Int.tdiv (castI64 ln_price) (castI64 (ln_step : Int)))

/-- Function `bin_index_to_price`: `(1 + step)^bin_index`, negative exponents via
the reciprocal `Q64² / denominator` (which wraps to `0` in u128). -/
def bin_index_to_price (bin_index : Int) (bin_step_bps : Nat) : Nat :=
  let one_plus_step := Q64_64 + Q64_64 * bin_step_bps / 10000
  if 0 ≤ bin_index then pow_q64 one_plus_step bin_index.toNat
  else
    let denominator := pow_q64 one_plus_step (-bin_index).toNat
    if denominator = 0 then 0
    else ((Q64_64 * Q64_64) % U128) / denominator

/-! ## `instructions/graduate.rs` — balanced liquidity distribution -/

/-- Constants of `balanced_strategy`. -/
def BASE_ALLOCATION_PCT : Nat := 40
def QUOTE_ALLOCATION_PCT : Nat := 40
def ACTIVE_BIN_PCT : Nat := 20

/-- Function `calculate_balanced_distribution`: per-bin amounts for the 40/40/20
strategy.  The two `for` loops push `num_bins_per_side` constant
amounts below and above the active bin (bin ids computed with `i32`
wrap-around), with the mixed active-bin amount in the middle. -/
def calculate_balanced_distribution (active_bin_index : Int)
    (num_bins_per_side total_base_tokens total_quote_tokens : Nat) :
    List Int × List Nat :=
  let base_per_bin :=
    if 0 < num_bins_per_side then
      total_base_tokens * BASE_ALLOCATION_PCT / 100 / num_bins_per_side
    else 0
  let quote_per_bin :=
    if 0 < num_bins_per_side then
      total_quote_tokens * QUOTE_ALLOCATION_PCT / 100 / num_bins_per_side
    else 0
  let active_base := total_base_tokens * ACTIVE_BIN_PCT / 200
  let active_quote := total_quote_tokens * ACTIVE_BIN_PCT / 200
  let below := (List.range num_bins_per_side).map
    (fun j => wrap32 (active_bin_index - ((num_bins_per_side - j : Nat) : Int)))
  let above := (List.range num_bins_per_side).map
    (fun j => wrap32 (active_bin_index + ((j + 1 : Nat) : Int)))
  (below ++ active_bin_index :: above,
   List.replicate num_bins_per_side (base_per_bin % U64)
     ++ ((active_base + active_quote) % U64)
       :: List.replicate num_bins_per_side (quote_per_bin % U64))

/-- Spec-side description of the bin-id sequence of the balanced
distribution: every bin from `active - n` through `active + n`, in
order. -/
def expectedBinIds (active : Int) (n : Nat) : List Int :=
  (List.range (2 * n + 1)).map (fun (j : Nat) => active - (n : Int) + (j : Int))

/-- Spec-side description of the per-bin amounts of the 40/40/20
strategy: `n` even shares of 40 % of the base budget below, the two
10 % active-bin halves in the middle, `n` even shares of 40 % of the
quote budget above. -/
def expectedAmounts (n tb tq : Nat) : List Nat :=
  List.replicate n (tb * 40 / 100 / n) ++
    (tb * 20 / 200 + tq * 20 / 200) :: List.replicate n (tq * 40 / 100 / n)

/-! ## Inversion lemmas for the curve engine -/

/-- Successful `calculate_buy` calls are exactly characterised by the
guard conditions of the source, and every field of the result is the
corresponding source expression. -/
theorem calculate_buy_ok_inv {s vs vt p c : Nat} {r : SwapResult}
    (h : calculate_buy s vs vt p c = .ok r) :
    MIN_TRADE_AMOUNT ≤ s ∧ 0 < vs ∧ 0 < vt ∧
    r.total_fee = (s * p / BPS_DENOMINATOR) % U64 ∧
    r.creator_fee = (s * c / BPS_DENOMINATOR) % U64 ∧
    r.protocol_fee = r.total_fee - r.creator_fee ∧
    0 < s - r.total_fee ∧
    r.new_sol_reserve = satAdd64 vs (s - r.total_fee) ∧
    r.new_token_reserve = (vs * vt / r.new_sol_reserve) % U64 ∧
    r.amount_out = vt - r.new_token_reserve ∧
    0 < r.amount_out ∧
    r.price_after = calculate_price r.new_sol_reserve r.new_token_reserve := by
  simp only [calculate_buy] at h
  split at h
  · exact absurd h (by simp)
  · split at h
    · exact absurd h (by simp)
    · split at h
      · exact absurd h (by simp)
      · split at h
        · exact absurd h (by simp)
        · split at h
          · exact absurd h (by simp)
          · rw [Except.ok.injEq] at h
            subst h
            refine ⟨?_, ?_, ?_, ?_, ?_, ?_, ?_, ?_, ?_, ?_, ?_, ?_⟩ <;> dsimp only <;>
              first
              | rfl
              | omega

/-- Successful `calculate_sell` calls, characterised likewise. -/
theorem calculate_sell_ok_inv {t vs vt p c : Nat} {r : SwapResult}
    (h : calculate_sell t vs vt p c = .ok r) :
    0 < t ∧ 0 < vs ∧ 0 < vt ∧
    r.new_token_reserve = satAdd64 vt t ∧
    r.new_sol_reserve = (vs * vt / r.new_token_reserve) % U64 ∧
    0 < vs - r.new_sol_reserve ∧
    r.total_fee = ((vs - r.new_sol_reserve) * p / BPS_DENOMINATOR) % U64 ∧
    r.creator_fee = ((vs - r.new_sol_reserve) * c / BPS_DENOMINATOR) % U64 ∧
    r.protocol_fee = r.total_fee - r.creator_fee ∧
    r.amount_out = (vs - r.new_sol_reserve) - r.total_fee ∧
    MIN_TRADE_AMOUNT ≤ r.amount_out ∧
    r.price_after = calculate_price r.new_sol_reserve r.new_token_reserve := by
  simp only [calculate_sell] at h
  split at h
  · exact absurd h (by simp)
  · split at h
    · exact absurd h (by simp)
    · split at h
      · exact absurd h (by simp)
      · split at h
        · exact absurd h (by simp)
        · split at h
          · exact absurd h (by simp)
          · rw [Except.ok.injEq] at h
            subst h
            refine ⟨?_, ?_, ?_, ?_, ?_, ?_, ?_, ?_, ?_, ?_, ?_, ?_⟩ <;> dsimp only <;>
              first
              | rfl
              | omega

/-! ## Arithmetic helper lemmas -/

theorem wrap32_eq_self {x : Int} (h1 : -(2147483648 : Int) ≤ x)
    (h2 : x < 2147483648) : wrap32 x = x := by
  unfold wrap32 toSigned lowBits
  norm_num
  have hm : Int.emod x 4294967296 = x % 4294967296 := rfl
  rw [hm]
  split <;> omega

theorem div_le_div_of_mul_le {a b c d : Nat} (hb : 0 < b) (hd : 0 < d)
    (h : a * d ≤ c * b) : a / b ≤ c / d := by
  rw [Nat.le_div_iff_mul_le hd]
  have h1 : a / b * b ≤ a := Nat.div_mul_le_self a b
  have h2 : a / b * d * b ≤ c * b := by
    calc a / b * d * b = a / b * b * d := by ring
    _ ≤ a * d := Nat.mul_le_mul_right d h1
    _ ≤ c * b := h
  exact Nat.le_of_mul_le_mul_right h2 hb

theorem div_mul_le_mul_div (a b c : Nat) : a / b * c ≤ a * c / b := by
  rcases Nat.eq_zero_or_pos b with hb | hb
  · subst hb; simp
  · rw [Nat.le_div_iff_mul_le hb]
    calc a / b * c * b = a / b * b * c := by ring
    _ ≤ a * c := Nat.mul_le_mul_right c (Nat.div_mul_le_self a b)

/-! ## Claim theorems -/

/-- C1: for every buy quote with `quote_in` at least the minimum trade size
and both reserves nonzero (and within the machine-integer domain: fee rates
at most 100 %, reserves and input fitting in `u64` without overflow),
`calculate_buy` returns `total_fee = ⌊quote_in·total_fee_bps/10000⌋`,
`creator_fee = ⌊quote_in·creator_fee_bps/10000⌋`, treasury share
`total_fee - creator_fee`, `new_sol_reserve = sol_reserve + (quote_in -
total_fee)`, `new_token_reserve = ⌊sol_reserve·token_reserve /
new_sol_reserve⌋` and `amount_out = token_reserve - new_token_reserve`,
which is nonzero; and (second part) whenever the computed output would be
zero, the quote is rejected with `InsufficientOutput`.  The fee
decomposition instance from the spec is checked in the witness. -/
theorem buy_quote_formulas :
    (∀ s vs vt p c r, calculate_buy s vs vt p c = Except.ok r →
      p ≤ BPS_DENOMINATOR → c ≤ BPS_DENOMINATOR → vs + s < U64 → vt < U64 →
      r.total_fee = s * p / BPS_DENOMINATOR ∧
      r.creator_fee = s * c / BPS_DENOMINATOR ∧
      r.protocol_fee = r.total_fee - r.creator_fee ∧
      r.new_sol_reserve = vs + (s - r.total_fee) ∧
      r.new_token_reserve = vs * vt / r.new_sol_reserve ∧
      r.amount_out = vt - r.new_token_reserve ∧
      0 < r.amount_out) ∧
    (∀ s vs vt p c, MIN_TRADE_AMOUNT ≤ s → 0 < vs → 0 < vt →
      0 < s - (s * p / BPS_DENOMINATOR) % U64 →
      vt - (vs * vt / satAdd64 vs (s - (s * p / BPS_DENOMINATOR) % U64)) % U64 = 0 →
      calculate_buy s vs vt p c = Except.error LaunchrError.InsufficientOutput) := by
  constructor
  · intro s vs vt p c r hok hp hc hvs hvt
    obtain ⟨hmin, hvs0, hvt0, htf, hcf, hpf, hafter, hnsr, hntr, hamt, hamt0, _⟩ :=
      calculate_buy_ok_inv hok
    have hs64 : s < U64 := by omega
    have htf' : r.total_fee = s * p / BPS_DENOMINATOR := by
      rw [htf, Nat.mod_eq_of_lt]
      calc s * p / BPS_DENOMINATOR ≤ s * BPS_DENOMINATOR / BPS_DENOMINATOR :=
            Nat.div_le_div_right (Nat.mul_le_mul_left s hp)
      _ = s := by simp [BPS_DENOMINATOR]
      _ < U64 := hs64
    have hcf' : r.creator_fee = s * c / BPS_DENOMINATOR := by
      rw [hcf, Nat.mod_eq_of_lt]
      calc s * c / BPS_DENOMINATOR ≤ s * BPS_DENOMINATOR / BPS_DENOMINATOR :=
            Nat.div_le_div_right (Nat.mul_le_mul_left s hc)
      _ = s := by simp [BPS_DENOMINATOR]
      _ < U64 := hs64
    have htfle : r.total_fee ≤ s := by
      rw [htf']
      calc s * p / BPS_DENOMINATOR ≤ s * BPS_DENOMINATOR / BPS_DENOMINATOR :=
            Nat.div_le_div_right (Nat.mul_le_mul_left s hp)
      _ = s := by simp [BPS_DENOMINATOR]
    have hnsr' : r.new_sol_reserve = vs + (s - r.total_fee) := by
      rw [hnsr, satAdd64, min_eq_left (by omega)]
    have hvsle : vs ≤ r.new_sol_reserve := by omega
    have hnsr0 : 0 < r.new_sol_reserve := by omega
    have hdiv_le : vs * vt / r.new_sol_reserve ≤ vt := by
      calc vs * vt / r.new_sol_reserve ≤ vs * vt / vs := Nat.div_le_div_left hvsle hvs0
      _ = vt := Nat.mul_div_cancel_left vt hvs0
    have hntr' : r.new_token_reserve = vs * vt / r.new_sol_reserve := by
      rw [hntr, Nat.mod_eq_of_lt (by omega)]
    exact ⟨htf', hcf', hpf, hnsr', hntr', hamt, hamt0⟩
  · intro s vs vt p c hmin hvs hvt hafter hzero
    simp only [calculate_buy]
    rw [if_neg (by omega), if_neg (not_not_intro ⟨hvs, hvt⟩), if_neg (by omega),
      if_pos hzero]

/-- Witness for C1: the spec's fee-decomposition instance.  For
`quote_in = 1e9`, `total_fee_bps = 100`, `creator_fee_bps = 20` on the
seeded reserves, the quote succeeds, `total_fee = 10_000_000 =
⌊1e9·100/10000⌋`, `creator_fee = 2_000_000 = ⌊1e9·20/10000⌋` and the
treasury share is `8_000_000`. -/
theorem buy_quote_formulas_witness :
    calculate_buy 1000000000 30000000000 800000000000000000 100 20 =
      Except.ok { amount_out := 25556631171345596, protocol_fee := 8000000,
                  creator_fee := 2000000, total_fee := 10000000,
                  new_sol_reserve := 30990000000,
                  new_token_reserve := 774443368828654404,
                  price_after := 40, price_impact_bps := 810 } ∧
    (10000000 : Nat) = 1000000000 * 100 / BPS_DENOMINATOR ∧
    (2000000 : Nat) = 1000000000 * 20 / BPS_DENOMINATOR ∧
    (8000000 : Nat) = 10000000 - 2000000 := by
  have hok : calculate_buy 1000000000 30000000000 800000000000000000 100 20 =
      Except.ok { amount_out := 25556631171345596, protocol_fee := 8000000,
                  creator_fee := 2000000, total_fee := 10000000,
                  new_sol_reserve := 30990000000,
                  new_token_reserve := 774443368828654404,
                  price_after := 40, price_impact_bps := 810 } := by decide
  have h := buy_quote_formulas.1 1000000000 30000000000 800000000000000000 100 20 _
    hok (by decide) (by decide) (by decide) (by decide)
  exact ⟨hok, h.1, h.2.1, h.2.2.1⟩

/-- C2 (amended): for every successful fee-free buy or sell quote on
nonzero reserves the post-trade reserve product never exceeds the prior
product, and it equals it within 0.1 % provided the post-trade divisor
reserve (the new SOL reserve for a buy, the new token reserve for a sell)
is at most one thousandth of the prior product — the side condition the
integer-rounding argument actually needs, and without which the original
claim fails (see the counterexample). -/
theorem fee_free_product_conservation :
    (∀ s vs vt r, calculate_buy s vs vt 0 0 = Except.ok r →
      vs + s < U64 → vt < U64 → 1000 * r.new_sol_reserve ≤ vs * vt →
      r.new_sol_reserve * r.new_token_reserve ≤ vs * vt ∧
      1000 * (vs * vt - r.new_sol_reserve * r.new_token_reserve) ≤ vs * vt) ∧
    (∀ t vs vt r, calculate_sell t vs vt 0 0 = Except.ok r →
      vt + t < U64 → vs < U64 → 1000 * r.new_token_reserve ≤ vs * vt →
      r.new_sol_reserve * r.new_token_reserve ≤ vs * vt ∧
      1000 * (vs * vt - r.new_sol_reserve * r.new_token_reserve) ≤ vs * vt) := by
  constructor
  · intro s vs vt r hok hvs hvt hk
    obtain ⟨hmin, hvs0, hvt0, htf, _, _, hafter, hnsr, hntr, _, _, _⟩ :=
      calculate_buy_ok_inv hok
    rw [Nat.mul_zero, Nat.zero_div, Nat.zero_mod] at htf
    rw [htf, Nat.sub_zero] at hnsr
    rw [satAdd64, min_eq_left (by omega)] at hnsr
    have hnsr0 : 0 < r.new_sol_reserve := by omega
    have hdivle : vs * vt / r.new_sol_reserve ≤ vt := by
      calc vs * vt / r.new_sol_reserve ≤ vs * vt / vs :=
            Nat.div_le_div_left (by omega) hvs0
      _ = vt := Nat.mul_div_cancel_left vt hvs0
    rw [Nat.mod_eq_of_lt (by omega)] at hntr
    have hdm := Nat.div_add_mod (vs * vt) r.new_sol_reserve
    have hmlt : vs * vt % r.new_sol_reserve < r.new_sol_reserve :=
      Nat.mod_lt _ hnsr0
    rw [hntr]
    constructor
    · calc r.new_sol_reserve * (vs * vt / r.new_sol_reserve)
          ≤ r.new_sol_reserve * (vs * vt / r.new_sol_reserve) + vs * vt % r.new_sol_reserve :=
            Nat.le_add_right _ _
      _ = vs * vt := hdm
    · omega
  · intro t vs vt r hok hvt hvs hk
    obtain ⟨ht0, hvs0, hvt0, hntr, hnsr, hsob, _, _, _, _, _, _⟩ :=
      calculate_sell_ok_inv hok
    rw [satAdd64, min_eq_left (by omega)] at hntr
    have hntr0 : 0 < r.new_token_reserve := by omega
    have hdivle : vs * vt / r.new_token_reserve ≤ vs := by
      calc vs * vt / r.new_token_reserve ≤ vs * vt / vt := by
            refine Nat.div_le_div_left (by omega) hvt0
      _ = vs := Nat.mul_div_cancel vs hvt0
    rw [Nat.mod_eq_of_lt (by omega)] at hnsr
    have hdm := Nat.div_add_mod (vs * vt) r.new_token_reserve
    have hmlt : vs * vt % r.new_token_reserve < r.new_token_reserve :=
      Nat.mod_lt _ hntr0
    rw [hnsr]
    constructor
    · calc vs * vt / r.new_token_reserve * r.new_token_reserve
          = r.new_token_reserve * (vs * vt / r.new_token_reserve) := by ring
      _ ≤ r.new_token_reserve * (vs * vt / r.new_token_reserve) + vs * vt % r.new_token_reserve :=
            Nat.le_add_right _ _
      _ = vs * vt := hdm
    · have hdm2 : vs * vt / r.new_token_reserve * r.new_token_reserve
          + vs * vt % r.new_token_reserve = vs * vt := by
        rw [Nat.mul_comm]; exact hdm
      omega

/-- Witness for C2: a fee-free 1 SOL buy and a fee-free 25·10¹⁵-token sell
on the seeded reserves both conserve the reserve product within 0.1 %. -/
theorem fee_free_product_conservation_witness :
    (calculate_buy 1000000000 30000000000 800000000000000000 0 0 =
      Except.ok { amount_out := 25806451612903226, protocol_fee := 0,
                  creator_fee := 0, total_fee := 0,
                  new_sol_reserve := 31000000000,
                  new_token_reserve := 774193548387096774,
                  price_after := 40, price_impact_bps := 810 } ∧
     31000000000 * 774193548387096774 ≤ 30000000000 * 800000000000000000 ∧
     1000 * (30000000000 * 800000000000000000 - 31000000000 * 774193548387096774) ≤
       30000000000 * 800000000000000000) ∧
    (calculate_sell 25000000000000000 30000000000 800000000000000000 0 0 =
      Except.ok { amount_out := 909090910, protocol_fee := 0,
                  creator_fee := 0, total_fee := 0,
                  new_sol_reserve := 29090909090,
                  new_token_reserve := 825000000000000000,
                  price_after := 35, price_impact_bps := 540 } ∧
     29090909090 * 825000000000000000 ≤ 30000000000 * 800000000000000000 ∧
     1000 * (30000000000 * 800000000000000000 - 29090909090 * 825000000000000000) ≤
       30000000000 * 800000000000000000) := by
  have hb : calculate_buy 1000000000 30000000000 800000000000000000 0 0 =
      Except.ok { amount_out := 25806451612903226, protocol_fee := 0,
                  creator_fee := 0, total_fee := 0,
                  new_sol_reserve := 31000000000,
                  new_token_reserve := 774193548387096774,
                  price_after := 40, price_impact_bps := 810 } := by decide
  have hs : calculate_sell 25000000000000000 30000000000 800000000000000000 0 0 =
      Except.ok { amount_out := 909090910, protocol_fee := 0,
                  creator_fee := 0, total_fee := 0,
                  new_sol_reserve := 29090909090,
                  new_token_reserve := 825000000000000000,
                  price_after := 35, price_impact_bps := 540 } := by decide
  have h1 := fee_free_product_conservation.1 1000000000 30000000000 800000000000000000 _
    hb (by decide) (by decide) (by decide)
  have h2 := fee_free_product_conservation.2 25000000000000000 30000000000 800000000000000000 _
    hs (by decide) (by decide) (by decide)
  exact ⟨⟨hb, h1.1, h1.2⟩, ⟨hs, h2.1, h2.2⟩⟩

/-- Counterexample for C2 as stated: the fee-free buy of 1000 lamports on
reserves `(1, 1)` succeeds, but the reserve product drops from `1` to
`1001·0 = 0` — a 100 % deviation, far beyond the claimed 0.1 %
integer-rounding tolerance. -/
theorem fee_free_product_conservation_cex :
    calculate_buy 1000 1 1 0 0 =
      Except.ok { amount_out := 1, protocol_fee := 0, creator_fee := 0,
                  total_fee := 0, new_sol_reserve := 1001,
                  new_token_reserve := 0, price_after := 0,
                  price_impact_bps := 10000 } ∧
    ¬ 1000 * ((1 : Nat) * 1 - 1001 * 0) ≤ 1 * 1 := by decide

/-- C3 (amended): the price is monotone, but only non-strictly — after any
successful buy `price_after` is at least the price computed from the input
reserves, and after any successful sell it is at most that price (within
the non-truncating `u64` domain, with a nonzero post-buy token reserve).
Strict movement can fail: integer flooring can leave the price unchanged
(see the counterexample). -/
theorem price_monotonicity :
    (∀ s vs vt p c r, calculate_buy s vs vt p c = Except.ok r →
      vs < U64 → vt < U64 → 0 < r.new_token_reserve →
      r.new_sol_reserve * PRICE_PRECISION / r.new_token_reserve < U64 →
      calculate_price vs vt ≤ r.price_after) ∧
    (∀ t vs vt p c r, calculate_sell t vs vt p c = Except.ok r →
      vs < U64 → vt + t < U64 → vs * PRICE_PRECISION / vt < U64 →
      r.price_after ≤ calculate_price vs vt) := by
  constructor
  · intro s vs vt p c r hok hvs hvt hntr0 hpa
    obtain ⟨_, hvs0, hvt0, _, _, _, hafter, hnsr, hntr, _, _, hprice⟩ :=
      calculate_buy_ok_inv hok
    have hvsle : vs ≤ r.new_sol_reserve := by
      rw [hnsr, satAdd64]
      exact le_min (by omega) (by omega)
    have hntrle : r.new_token_reserve ≤ vt := by
      rw [hntr]
      calc vs * vt / r.new_sol_reserve % U64 ≤ vs * vt / r.new_sol_reserve :=
            Nat.mod_le _ _
      _ ≤ vs * vt / vs := Nat.div_le_div_left hvsle hvs0
      _ = vt := Nat.mul_div_cancel_left vt hvs0
    have hmono : vs * PRICE_PRECISION / vt ≤
        r.new_sol_reserve * PRICE_PRECISION / r.new_token_reserve := by
      refine div_le_div_of_mul_le hvt0 hntr0 ?_
      calc vs * PRICE_PRECISION * r.new_token_reserve
          = vs * r.new_token_reserve * PRICE_PRECISION := by ring
      _ ≤ r.new_sol_reserve * vt * PRICE_PRECISION := by
            refine Nat.mul_le_mul_right _ ?_
            calc vs * r.new_token_reserve ≤ vs * vt :=
                  Nat.mul_le_mul_left vs hntrle
            _ ≤ r.new_sol_reserve * vt := Nat.mul_le_mul_right vt hvsle
      _ = r.new_sol_reserve * PRICE_PRECISION * vt := by ring
    rw [hprice, calculate_price, if_neg (by omega), calculate_price,
      if_neg (by omega), Nat.mod_eq_of_lt hpa, Nat.mod_eq_of_lt (by omega)]
    exact hmono
  · intro t vs vt p c r hok hvs hvt hpb
    obtain ⟨ht0, hvs0, hvt0, hntr, hnsr, _, _, _, _, _, _, hprice⟩ :=
      calculate_sell_ok_inv hok
    rw [satAdd64, min_eq_left (by omega)] at hntr
    have hvtle : vt ≤ r.new_token_reserve := by omega
    have hntr0 : 0 < r.new_token_reserve := by omega
    have hnsrle : r.new_sol_reserve ≤ vs := by
      rw [hnsr]
      calc vs * vt / r.new_token_reserve % U64 ≤ vs * vt / r.new_token_reserve :=
            Nat.mod_le _ _
      _ ≤ vs * vt / vt := Nat.div_le_div_left hvtle hvt0
      _ = vs := Nat.mul_div_cancel vs hvt0
    have hnsr' : r.new_sol_reserve = vs * vt / r.new_token_reserve := by
      rw [hnsr, Nat.mod_eq_of_lt]
      calc vs * vt / r.new_token_reserve ≤ vs * vt / vt :=
            Nat.div_le_div_left hvtle hvt0
      _ = vs := Nat.mul_div_cancel vs hvt0
      _ < U64 := hvs
    have hmono : r.new_sol_reserve * PRICE_PRECISION / r.new_token_reserve ≤
        vs * PRICE_PRECISION / vt := by
      refine div_le_div_of_mul_le hntr0 hvt0 ?_
      have hkey : r.new_sol_reserve * vt ≤ vs * r.new_token_reserve := by
        rw [hnsr']
        calc vs * vt / r.new_token_reserve * vt ≤ vs * vt * vt / r.new_token_reserve :=
              div_mul_le_mul_div _ _ _
        _ ≤ vs * r.new_token_reserve * r.new_token_reserve / r.new_token_reserve := by
              refine Nat.div_le_div_right ?_
              calc vs * vt * vt ≤ vs * r.new_token_reserve * vt := by
                    exact Nat.mul_le_mul_right vt (Nat.mul_le_mul_left vs hvtle)
              _ ≤ vs * r.new_token_reserve * r.new_token_reserve :=
                    Nat.mul_le_mul_left _ hvtle
        _ = vs * r.new_token_reserve := Nat.mul_div_cancel _ hntr0
      calc r.new_sol_reserve * PRICE_PRECISION * vt
          = r.new_sol_reserve * vt * PRICE_PRECISION := by ring
      _ ≤ vs * r.new_token_reserve * PRICE_PRECISION :=
            Nat.mul_le_mul_right _ hkey
      _ = vs * PRICE_PRECISION * r.new_token_reserve := by ring
    rw [hprice, calculate_price, if_neg (by omega), calculate_price,
      if_neg (by omega), Nat.mod_eq_of_lt (by omega), Nat.mod_eq_of_lt hpb]
    exact hmono

/-- Witness for C3: on the seeded reserves with the deployed 1 %/0.2 %
fees, a 1 SOL buy moves the stored price from 37 up to 40, and a
25·10¹⁵-token sell moves it from 37 down to 35. -/
theorem price_monotonicity_witness :
    (calculate_buy 1000000000 30000000000 800000000000000000 100 20 =
      Except.ok { amount_out := 25556631171345596, protocol_fee := 8000000,
                  creator_fee := 2000000, total_fee := 10000000,
                  new_sol_reserve := 30990000000,
                  new_token_reserve := 774443368828654404,
                  price_after := 40, price_impact_bps := 810 } ∧
     calculate_price 30000000000 800000000000000000 ≤ 40) ∧
    (calculate_sell 25000000000000000 30000000000 800000000000000000 100 20 =
      Except.ok { amount_out := 900000001, protocol_fee := 7272728,
                  creator_fee := 1818181, total_fee := 9090909,
                  new_sol_reserve := 29090909090,
                  new_token_reserve := 825000000000000000,
                  price_after := 35, price_impact_bps := 540 } ∧
     (35 : Nat) ≤ calculate_price 30000000000 800000000000000000) := by
  have hb : calculate_buy 1000000000 30000000000 800000000000000000 100 20 =
      Except.ok { amount_out := 25556631171345596, protocol_fee := 8000000,
                  creator_fee := 2000000, total_fee := 10000000,
                  new_sol_reserve := 30990000000,
                  new_token_reserve := 774443368828654404,
                  price_after := 40, price_impact_bps := 810 } := by decide
  have hs : calculate_sell 25000000000000000 30000000000 800000000000000000 100 20 =
      Except.ok { amount_out := 900000001, protocol_fee := 7272728,
                  creator_fee := 1818181, total_fee := 9090909,
                  new_sol_reserve := 29090909090,
                  new_token_reserve := 825000000000000000,
                  price_after := 35, price_impact_bps := 540 } := by decide
  have h1 := price_monotonicity.1 1000000000 30000000000 800000000000000000 100 20 _
    hb (by decide) (by decide) (by decide) (by decide)
  have h2 := price_monotonicity.2 25000000000000000 30000000000 800000000000000000 100 20 _
    hs (by decide) (by decide) (by decide)
  exact ⟨⟨hb, h1⟩, ⟨hs, h2⟩⟩

/-- Counterexample for C3 as stated: the buy of 1000 lamports on reserves
`(10¹⁶, 10¹⁶)` succeeds with a nonzero input, yet `price_after` equals
the pre-trade price exactly (both floor to `10⁹`), so the price does not
*strictly* increase. -/
theorem price_monotonicity_cex :
    calculate_buy 1000 10000000000000000 10000000000000000 0 0 =
      Except.ok { amount_out := 1000, protocol_fee := 0, creator_fee := 0,
                  total_fee := 0, new_sol_reserve := 10000000000001000,
                  new_token_reserve := 9999999999999000,
                  price_after := 1000000000, price_impact_bps := 0 } ∧
    calculate_price 10000000000000000 10000000000000000 = 1000000000 := by decide

/-! ## State-machine helper lemmas -/

/-- On an `Active` launch, `record_buy` moves to `PendingGraduation`
exactly when the updated real SOL reserve reaches the graduation
threshold; the threshold itself and the updated reserves are unchanged
by the status choice. -/
theorem record_buy_active_characterisation (l : Launch) (t u : Nat)
    (hA : l.status = LaunchStatus.Active) :
    ((l.record_buy t u).status = LaunchStatus.PendingGraduation ↔
      l.graduation_threshold ≤ (l.record_buy t u).real_sol_reserve) ∧
    (l.record_buy t u).real_sol_reserve = satAdd64 l.real_sol_reserve u ∧
    (l.record_buy t u).virtual_sol_reserve = satAdd64 l.virtual_sol_reserve u ∧
    (l.record_buy t u).virtual_token_reserve = l.virtual_token_reserve - t ∧
    (l.record_buy t u).graduation_threshold = l.graduation_threshold := by
  simp only [Launch.record_buy]
  split
  next h => simp_all [Launch.threshold_reached]
  next h =>
    simp only [Launch.threshold_reached, hA, and_true, not_le] at h
    simp_all [Launch.threshold_reached]

/-- Lemma: `record_buy` never changes the status of a launch that is not
`Active`. -/
theorem record_buy_status_frozen (l : Launch) (t u : Nat)
    (h : l.status ≠ LaunchStatus.Active) :
    (l.record_buy t u).status = l.status := by
  simp only [Launch.record_buy]
  split
  next hc => exact absurd hc.2 h
  next _ => rfl

/-- Inversion of a successful `buy` instruction: the pause and activity
constraints held, the quote succeeded, slippage and vault-liquidity
checks passed, and the post-state is the recorded update. -/
theorem buyStep_ok_inv {cfg : Config} {l : Launch} {p : UserPosition}
    {amt minOut : Nat} {now : Int} {l' : Launch} {p' : UserPosition} {r : SwapResult}
    (hok : buyStep cfg l p amt minOut now = .ok (l', p', r)) :
    cfg.trading_paused = false ∧ l.status = LaunchStatus.Active ∧
    calculate_buy amt l.virtual_sol_reserve l.virtual_token_reserve
      cfg.protocol_fee_bps l.creator_fee_bps = .ok r ∧
    minOut ≤ r.amount_out ∧ r.amount_out ≤ l.real_token_reserve ∧
    l' = (if p.is_new then
            { l.record_buy r.amount_out (amt - r.protocol_fee - r.creator_fee) with
              holder_count :=
                satAdd32 (l.record_buy r.amount_out
                  (amt - r.protocol_fee - r.creator_fee)).holder_count 1 }
          else l.record_buy r.amount_out (amt - r.protocol_fee - r.creator_fee)) ∧
    p' = ((if p.is_new then p.init now else p).record_buy r.amount_out amt now) := by
  unfold buyStep at hok
  split at hok
  next hpause => exact absurd hok (by simp)
  next hpause =>
    split at hok
    next hact => exact absurd hok (by simp)
    next hact =>
      split at hok
      next e heq => exact absurd hok (by simp)
      next r2 heq =>
        split at hok
        next hslip => exact absurd hok (by simp)
        next hslip =>
          split at hok
          next hliq => exact absurd hok (by simp)
          next hliq =>
            simp only [Except.ok.injEq, Prod.mk.injEq] at hok
            obtain ⟨h1, h2, h3⟩ := hok
            subst h1 h2 h3
            exact ⟨by simpa using hpause,
              by simpa [Launch.is_tradeable] using not_not.mp hact,
              heq, by omega, not_not.mp hliq, rfl, rfl⟩

/-- C4: a buy that lifts the real SOL reserve from below the graduation
threshold to (at least) the threshold flips the status to
`PendingGraduation` within the same operation — and exactly then; the
transition only ever fires from `Active` (third conjunct); and once
pending, every further buy or sell on the launch is rejected with the
not-active error. -/
theorem threshold_crossing_halts_trading
    (cfg : Config) (l : Launch) (p : UserPosition) (amt minOut : Nat) (now : Int)
    (l' : Launch) (p' : UserPosition) (r : SwapResult)
    (hok : buyStep cfg l p amt minOut now = .ok (l', p', r))
    (_hbelow : l.real_sol_reserve < l.graduation_threshold) :
    (l'.status = LaunchStatus.PendingGraduation ↔
      l.graduation_threshold ≤ l'.real_sol_reserve) ∧
    (l.graduation_threshold ≤ l'.real_sol_reserve →
      (∀ p2 amt2 min2 now2, buyStep cfg l' p2 amt2 min2 now2 =
        .error LaunchrError.LaunchNotActive) ∧
      (∀ p2 bal vlt amt2 min2 now2, sellStep cfg l' p2 bal vlt amt2 min2 now2 =
        .error LaunchrError.LaunchNotActive)) ∧
    (∀ l0 : Launch, ∀ t u : Nat, l0.status ≠ LaunchStatus.Active →
      (l0.record_buy t u).status = l0.status) := by
  obtain ⟨hpause, hact, hq, hmin, hliq, hl', hp'⟩ := buyStep_ok_inv hok
  have hstat : l'.status =
      (l.record_buy r.amount_out (amt - r.protocol_fee - r.creator_fee)).status := by
    rw [hl']; split <;> rfl
  have hreal : l'.real_sol_reserve =
      (l.record_buy r.amount_out (amt - r.protocol_fee - r.creator_fee)).real_sol_reserve := by
    rw [hl']; split <;> rfl
  obtain ⟨hiff, hrs, _, _, hth⟩ :=
    record_buy_active_characterisation l r.amount_out
      (amt - r.protocol_fee - r.creator_fee) hact
  have h1 : l'.status = LaunchStatus.PendingGraduation ↔
      l.graduation_threshold ≤ l'.real_sol_reserve := by
    rw [hstat, hreal]; exact hiff
  refine ⟨h1, ?_, fun l0 t u h => record_buy_status_frozen l0 t u h⟩
  intro hcross
  have hpend : l'.status = LaunchStatus.PendingGraduation := h1.mpr hcross
  constructor
  · intro p2 amt2 min2 now2
    unfold buyStep
    rw [if_neg (by simp [hpause]), if_pos (by simp [Launch.is_tradeable, hpend])]
  · intro p2 bal vlt amt2 min2 now2
    unfold sellStep
    rw [if_neg (by simp [hpause]), if_pos (by simp [Launch.is_tradeable, hpend])]

/-- Witness for C4: with the threshold at 10000 lamports and the real
reserve one crossing away at 9000, a 10000-lamport buy succeeds, lands the
real reserve at 18900 ≥ 10000, flips the status to `PendingGraduation`,
and the next buy and sell attempts fail with `LaunchNotActive`. -/
theorem threshold_crossing_halts_trading_witness :
    buyStep ⟨100, false, 10000⟩
      ⟨.Active, 0, 0, 0, 0, 30000000000, 800000000000000000, 9000,
        800000000000000000, 10000, 0, 0, 0, 0, 0, 0, 0, 20⟩
      ⟨0, 0, 0, 0, 0, 0, 0, 0, 0, 0, 0⟩ 10000 0 0 =
      Except.ok
        (⟨.PendingGraduation, 0, 263999912881, 0, 0, 30000009900, 799999736000087119,
           18900, 799999736000087119, 10000, 0, 0, 9900, 0, 1, 1, 0, 20⟩,
         ⟨263999912881, 0, 263999912881, 10000, 0, 0, 0, 1, 0, 37, 10000⟩,
         ⟨263999912881, 80, 20, 100, 30000009900, 799999736000087119, 37, 0⟩) ∧
    (⟨.PendingGraduation, 0, 263999912881, 0, 0, 30000009900, 799999736000087119,
       18900, 799999736000087119, 10000, 0, 0, 9900, 0, 1, 1, 0, 20⟩ : Launch).status =
      LaunchStatus.PendingGraduation ∧
    buyStep ⟨100, false, 10000⟩
      ⟨.PendingGraduation, 0, 263999912881, 0, 0, 30000009900, 799999736000087119,
        18900, 799999736000087119, 10000, 0, 0, 9900, 0, 1, 1, 0, 20⟩
      ⟨0, 0, 0, 0, 0, 0, 0, 0, 0, 0, 0⟩ 10000 0 0 =
      Except.error LaunchrError.LaunchNotActive ∧
    sellStep ⟨100, false, 10000⟩
      ⟨.PendingGraduation, 0, 263999912881, 0, 0, 30000009900, 799999736000087119,
        18900, 799999736000087119, 10000, 0, 0, 9900, 0, 1, 1, 0, 20⟩
      ⟨0, 0, 0, 0, 0, 0, 0, 0, 0, 0, 0⟩ 1000000000 1000000000 100000000 0 0 =
      Except.error LaunchrError.LaunchNotActive := by
  have hok : buyStep ⟨100, false, 10000⟩
      ⟨.Active, 0, 0, 0, 0, 30000000000, 800000000000000000, 9000,
        800000000000000000, 10000, 0, 0, 0, 0, 0, 0, 0, 20⟩
      ⟨0, 0, 0, 0, 0, 0, 0, 0, 0, 0, 0⟩ 10000 0 0 =
      Except.ok
        (⟨.PendingGraduation, 0, 263999912881, 0, 0, 30000009900, 799999736000087119,
           18900, 799999736000087119, 10000, 0, 0, 9900, 0, 1, 1, 0, 20⟩,
         ⟨263999912881, 0, 263999912881, 10000, 0, 0, 0, 1, 0, 37, 10000⟩,
         ⟨263999912881, 80, 20, 100, 30000009900, 799999736000087119, 37, 0⟩) := by decide
  have h := threshold_crossing_halts_trading ⟨100, false, 10000⟩
    ⟨.Active, 0, 0, 0, 0, 30000000000, 800000000000000000, 9000,
      800000000000000000, 10000, 0, 0, 0, 0, 0, 0, 0, 20⟩
    ⟨0, 0, 0, 0, 0, 0, 0, 0, 0, 0, 0⟩ 10000 0 0 _ _ _ hok (by decide)
  have hcross := (h.2.1 (by decide))
  exact ⟨hok, h.1.mpr (by decide),
    hcross.1 ⟨0, 0, 0, 0, 0, 0, 0, 0, 0, 0, 0⟩ 10000 0 0,
    hcross.2 ⟨0, 0, 0, 0, 0, 0, 0, 0, 0, 0, 0⟩ 1000000000 1000000000 100000000 0 0⟩

/-- C9: a buy invoked with `min_base_out` one above the quoted output
fails with the slippage error.  In this embedding a failing instruction
returns `Except.error` and no post-state at all — the transaction aborts
before any account is written, so reserves, statistics and status are
untouched by construction. -/
theorem slippage_rejection
    (cfg : Config) (l : Launch) (p : UserPosition) (amt : Nat) (now : Int)
    (r : SwapResult)
    (hq : calculate_buy amt l.virtual_sol_reserve l.virtual_token_reserve
      cfg.protocol_fee_bps l.creator_fee_bps = .ok r)
    (hpause : cfg.trading_paused = false)
    (hact : l.status = LaunchStatus.Active) :
    buyStep cfg l p amt (r.amount_out + 1) now =
      .error LaunchrError.SlippageExceeded := by
  unfold buyStep
  rw [if_neg (by simp [hpause]), if_neg (by simp [Launch.is_tradeable, hact]), hq]
  simp only [Nat.lt_succ_self, if_true]

/-- Witness for C9: the standard 1 SOL buy quotes 25556631171345596
tokens; requesting one more token fails with `SlippageExceeded`. -/
theorem slippage_rejection_witness :
    buyStep ⟨100, false, 85000000000⟩
      ⟨.Active, 0, 0, 0, 0, 30000000000, 800000000000000000, 0,
        800000000000000000, 85000000000, 0, 0, 0, 0, 0, 0, 0, 20⟩
      ⟨0, 0, 0, 0, 0, 0, 0, 0, 0, 0, 0⟩ 1000000000 25556631171345597 0 =
      Except.error LaunchrError.SlippageExceeded := by
  have hq : calculate_buy 1000000000 30000000000 800000000000000000 100 20 =
      Except.ok { amount_out := 25556631171345596, protocol_fee := 8000000,
                  creator_fee := 2000000, total_fee := 10000000,
                  new_sol_reserve := 30990000000,
                  new_token_reserve := 774443368828654404,
                  price_after := 40, price_impact_bps := 810 } := by decide
  exact slippage_rejection ⟨100, false, 85000000000⟩
    ⟨.Active, 0, 0, 0, 0, 30000000000, 800000000000000000, 0,
      800000000000000000, 85000000000, 0, 0, 0, 0, 0, 0, 0, 20⟩
    ⟨0, 0, 0, 0, 0, 0, 0, 0, 0, 0, 0⟩ 1000000000 0 _ hq rfl rfl

/-- C10 (amended): after a successful buy in which the creator fee does
not exceed the total fee (true whenever `creator_fee_bps ≤
protocol_fee_bps`, as in the deployed 20/100 configuration), the SOL
credited to the vault is exactly `quote_in - total_fee`, and the stored
virtual reserves coincide with the quote's `new_sol_reserve` /
`new_token_reserve`.  When the creator fee exceeds the total fee (e.g.
`protocol_fee_bps = 0`), the vault credit is `quote_in - creator_fee`
instead and the stored SOL reserve falls short of the quote (see the
counterexample). -/
theorem buy_refinement
    (cfg : Config) (l : Launch) (p : UserPosition) (amt minOut : Nat) (now : Int)
    (l' : Launch) (p' : UserPosition) (r : SwapResult)
    (hok : buyStep cfg l p amt minOut now = .ok (l', p', r))
    (hfee : r.creator_fee ≤ r.total_fee) :
    amt - r.protocol_fee - r.creator_fee = amt - r.total_fee ∧
    l'.virtual_sol_reserve = r.new_sol_reserve ∧
    l'.virtual_token_reserve = r.new_token_reserve ∧
    l'.real_sol_reserve = satAdd64 l.real_sol_reserve (amt - r.total_fee) := by
  obtain ⟨hpause, hact, hq, hmin, hliq, hl', hp'⟩ := buyStep_ok_inv hok
  obtain ⟨_, hvs0, hvt0, htf, hcf, hpf, hafter, hnsr, hntr, hamt, hamt0, _⟩ :=
    calculate_buy_ok_inv hq
  have hstv : amt - r.protocol_fee - r.creator_fee = amt - r.total_fee := by omega
  obtain ⟨_, hrs, hvsol, hvtok, _⟩ :=
    record_buy_active_characterisation l r.amount_out
      (amt - r.protocol_fee - r.creator_fee) hact
  have hvs' : l'.virtual_sol_reserve =
      (l.record_buy r.amount_out (amt - r.protocol_fee - r.creator_fee)).virtual_sol_reserve := by
    rw [hl']; split <;> rfl
  have hvt' : l'.virtual_token_reserve =
      (l.record_buy r.amount_out (amt - r.protocol_fee - r.creator_fee)).virtual_token_reserve := by
    rw [hl']; split <;> rfl
  have hre' : l'.real_sol_reserve =
      (l.record_buy r.amount_out (amt - r.protocol_fee - r.creator_fee)).real_sol_reserve := by
    rw [hl']; split <;> rfl
  have hntr_le : r.new_token_reserve < l.virtual_token_reserve := by omega
  refine ⟨hstv, ?_, ?_, ?_⟩
  · rw [hvs', hvsol, hstv, hnsr]
  · rw [hvt', hvtok, hamt]; omega
  · rw [hre', hrs, hstv]

/-- Witness for C10: the standard 1 SOL buy with fees 100/20 bps credits
`1e9 - 10^7` lamports and stores exactly the quote's reserves. -/
theorem buy_refinement_witness :
    buyStep ⟨100, false, 85000000000⟩
      ⟨.Active, 0, 0, 0, 0, 30000000000, 800000000000000000, 0,
        800000000000000000, 85000000000, 0, 0, 0, 0, 0, 0, 0, 20⟩
      ⟨0, 0, 0, 0, 0, 0, 0, 0, 0, 0, 0⟩ 1000000000 0 0 =
      Except.ok
        (⟨.Active, 0, 25556631171345596, 0, 0, 30990000000, 774443368828654404,
           990000000, 774443368828654404, 85000000000, 0, 0, 990000000, 0, 1, 1, 0, 20⟩,
         ⟨25556631171345596, 0, 25556631171345596, 1000000000, 0, 0, 0, 1, 0, 39,
           1000000000⟩,
         ⟨25556631171345596, 8000000, 2000000, 10000000, 30990000000,
           774443368828654404, 40, 810⟩) ∧
    (1000000000 - 8000000 - 2000000 : Nat) = 1000000000 - 10000000 ∧
    (30990000000 : Nat) = 30990000000 ∧
    (774443368828654404 : Nat) = 774443368828654404 := by
  have hok : buyStep ⟨100, false, 85000000000⟩
      ⟨.Active, 0, 0, 0, 0, 30000000000, 800000000000000000, 0,
        800000000000000000, 85000000000, 0, 0, 0, 0, 0, 0, 0, 20⟩
      ⟨0, 0, 0, 0, 0, 0, 0, 0, 0, 0, 0⟩ 1000000000 0 0 =
      Except.ok
        (⟨.Active, 0, 25556631171345596, 0, 0, 30990000000, 774443368828654404,
           990000000, 774443368828654404, 85000000000, 0, 0, 990000000, 0, 1, 1, 0, 20⟩,
         ⟨25556631171345596, 0, 25556631171345596, 1000000000, 0, 0, 0, 1, 0, 39,
           1000000000⟩,
         ⟨25556631171345596, 8000000, 2000000, 10000000, 30990000000,
           774443368828654404, 40, 810⟩) := by decide
  have h := buy_refinement ⟨100, false, 85000000000⟩
    ⟨.Active, 0, 0, 0, 0, 30000000000, 800000000000000000, 0,
      800000000000000000, 85000000000, 0, 0, 0, 0, 0, 0, 0, 20⟩
    ⟨0, 0, 0, 0, 0, 0, 0, 0, 0, 0, 0⟩ 1000000000 0 0 _ _ _ hok (by decide)
  exact ⟨hok, h.1, h.2.1, h.2.2.1⟩

/-- Counterexample for C10 as stated: with `protocol_fee_bps = 0` (a
config the program accepts) and the fixed 20 bps creator fee, a
successful 10⁶-lamport buy credits `10⁶ - 2000` to the vault, so the
stored virtual SOL reserve 30000998000 differs from the quote's
`new_sol_reserve` 30001000000. -/
theorem buy_refinement_cex :
    (buyStep ⟨0, false, 85000000000⟩
      ⟨.Active, 0, 0, 0, 0, 30000000000, 800000000000000000, 0,
        800000000000000000, 85000000000, 0, 0, 0, 0, 0, 0, 0, 20⟩
      ⟨0, 0, 0, 0, 0, 0, 0, 0, 0, 0, 0⟩ 1000000 0 0).toOption.map
        (fun x => (x.1.virtual_sol_reserve, x.2.2.new_sol_reserve)) =
      some (30000998000, 30001000000) ∧
    (30000998000 : Nat) ≠ 30001000000 := by decide

/-- C7: `graduate` succeeds only from `Active` or `PendingGraduation`
with the real reserve at the threshold (and the vault holding the 85 SOL
distribution); on success it marks the launch `Graduated`, records the
pool reference and timestamp, and pays the fixed split — the constant
2 SOL creator reward, the constant 3 SOL treasury fee, and the entire
remainder of the vault to the liquidity venue (the three parts exhaust
the vault balance); any repeated call fails with `AlreadyGraduated`. -/
theorem graduate_lifecycle
    (l : Launch) (v pool : Nat) (ts : Int) (l' : Launch) (cr tr lp : Nat)
    (hok : graduateStep l v pool ts = .ok (l', cr, tr, lp)) :
    (l.status = LaunchStatus.Active ∨ l.status = LaunchStatus.PendingGraduation) ∧
    l.graduation_threshold ≤ l.real_sol_reserve ∧
    GRADUATION_THRESHOLD ≤ v ∧
    l'.status = LaunchStatus.Graduated ∧ l'.orbit_pool = pool ∧ l'.graduated_at = ts ∧
    cr = CREATOR_REWARD_LAMPORTS ∧ tr = TREASURY_FEE_LAMPORTS ∧
    lp = v - CREATOR_REWARD_LAMPORTS - TREASURY_FEE_LAMPORTS ∧
    cr + tr + lp = v ∧
    (∀ v2 pool2 ts2, graduateStep l' v2 pool2 ts2 =
      .error LaunchrError.AlreadyGraduated) := by
  unfold graduateStep at hok
  split at hok
  next hcg => exact absurd hok (by simp)
  next hcg =>
    split at hok
    next hth => exact absurd hok (by simp)
    next hth =>
      split at hok
      next hv => exact absurd hok (by simp)
      next hv =>
        simp only [Except.ok.injEq, Prod.mk.injEq] at hok
        obtain ⟨h1, h2, h3, h4⟩ := hok
        subst h1 h2 h3 h4
        have hth' : l.threshold_reached := not_not.mp hth
        have hcg' : l.can_graduate := not_not.mp hcg
        have hG : GRADUATION_THRESHOLD = 85000000000 := rfl
        have hC : CREATOR_REWARD_LAMPORTS = 2000000000 := rfl
        have hT : TREASURY_FEE_LAMPORTS = 3000000000 := rfl
        refine ⟨hcg', hth', by omega, rfl, rfl, rfl, rfl, rfl, rfl, by omega, ?_⟩
        intro v2 pool2 ts2
        unfold graduateStep
        rw [if_pos (by simp [Launch.can_graduate, Launch.graduate])]

/-- Witness for C7: a pending launch at the 85 SOL threshold with an
85 SOL vault graduates, paying 2 SOL + 3 SOL + 80 SOL = 85 SOL, and a
second `graduate` call fails with `AlreadyGraduated`. -/
theorem graduate_lifecycle_witness :
    graduateStep
      ⟨.PendingGraduation, 0, 0, 0, 0, 115000000000, 270000000000000000,
        85000000000, 270000000000000000, 85000000000, 0, 0, 0, 0, 0, 0, 0, 20⟩
      85000000000 7 5 =
      Except.ok
        (⟨.Graduated, 0, 0, 0, 0, 115000000000, 270000000000000000,
           85000000000, 270000000000000000, 85000000000, 0, 5, 0, 0, 0, 0, 7, 20⟩,
         2000000000, 3000000000, 80000000000) ∧
    (2000000000 : Nat) = CREATOR_REWARD_LAMPORTS ∧
    (3000000000 : Nat) = TREASURY_FEE_LAMPORTS ∧
    (2000000000 + 3000000000 + 80000000000 : Nat) = 85000000000 ∧
    graduateStep
      ⟨.Graduated, 0, 0, 0, 0, 115000000000, 270000000000000000,
        85000000000, 270000000000000000, 85000000000, 0, 5, 0, 0, 0, 0, 7, 20⟩
      85000000000 9 9 = Except.error LaunchrError.AlreadyGraduated := by
  have hok : graduateStep
      ⟨.PendingGraduation, 0, 0, 0, 0, 115000000000, 270000000000000000,
        85000000000, 270000000000000000, 85000000000, 0, 0, 0, 0, 0, 0, 0, 20⟩
      85000000000 7 5 =
      Except.ok
        (⟨.Graduated, 0, 0, 0, 0, 115000000000, 270000000000000000,
           85000000000, 270000000000000000, 85000000000, 0, 5, 0, 0, 0, 0, 7, 20⟩,
         2000000000, 3000000000, 80000000000) := by decide
  have h := graduate_lifecycle _ _ _ _ _ _ _ _ hok
  exact ⟨hok, h.2.2.2.2.2.2.1, h.2.2.2.2.2.2.2.1, h.2.2.2.2.2.2.2.2.2.1,
    h.2.2.2.2.2.2.2.2.2.2 85000000000 9 9⟩

/-- C8 (amended): `record_sell` does not reject an oversized `tokens`
argument — `token_balance` is clamped at zero by saturating subtraction
(shown in the counterexample).  Within the non-saturating domain
(`tokens` at most the balance and the lifetime `tokens_bought`, running
totals and cost basis below `2^64`), it adds `tokens` to `tokens_sold`,
subtracts them from `token_balance`, adds the proceeds to
`sol_received`, reduces the cost basis by
`⌊cost_basis · ⌊tokens·10⁹ / tokens_bought⌋ / 10⁹⌋` — the doubly floored
ratio against the lifetime `tokens_bought`, not the single floor
`⌊cost_basis·tokens/tokens_bought⌋` of the claim — and recomputes
`avg_buy_price` from the residual balance, zeroing it when the balance
is exhausted. -/
theorem record_sell_accounting
    (p : UserPosition) (tokens q : Nat) (ts : Int)
    (hb : 0 < p.tokens_bought)
    (_hbal : tokens ≤ p.token_balance)
    (hred : tokens ≤ p.tokens_bought)
    (hsold : p.tokens_sold + tokens < U64)
    (hrecv : p.sol_received + q < U64)
    (hcb : p.cost_basis < U64) :
    (p.record_sell tokens q ts).tokens_sold = p.tokens_sold + tokens ∧
    (p.record_sell tokens q ts).token_balance = p.token_balance - tokens ∧
    (p.record_sell tokens q ts).sol_received = p.sol_received + q ∧
    (p.record_sell tokens q ts).cost_basis =
      p.cost_basis - p.cost_basis * (tokens * 1000000000 / p.tokens_bought) / 1000000000 ∧
    (0 < p.token_balance - tokens →
      (p.record_sell tokens q ts).avg_buy_price =
        ((p.record_sell tokens q ts).cost_basis * 1000000000 /
          (p.token_balance - tokens)) % U64) ∧
    (p.token_balance - tokens = 0 →
      (p.record_sell tokens q ts).avg_buy_price = 0) := by
  have hrat : tokens * 1000000000 / p.tokens_bought ≤ 1000000000 := by
    calc tokens * 1000000000 / p.tokens_bought
        ≤ p.tokens_bought * 1000000000 / p.tokens_bought :=
          Nat.div_le_div_right (Nat.mul_le_mul_right _ hred)
    _ = 1000000000 := Nat.mul_div_cancel_left _ hb
  have hredlt : p.cost_basis * (tokens * 1000000000 / p.tokens_bought) / 1000000000
      < U64 := by
    calc p.cost_basis * (tokens * 1000000000 / p.tokens_bought) / 1000000000
        ≤ p.cost_basis * 1000000000 / 1000000000 :=
          Nat.div_le_div_right (Nat.mul_le_mul_left _ hrat)
    _ = p.cost_basis := by omega
    _ < U64 := hcb
  simp only [UserPosition.record_sell, if_pos hb]
  rw [satAdd64, satAdd64, min_eq_left (by omega), min_eq_left (by omega),
    Nat.mod_eq_of_lt hredlt]
  refine ⟨rfl, trivial, rfl, rfl, ?_, ?_⟩
  · intro hpos
    rw [if_pos hpos]
  · intro hzero
    rw [hzero]
    simp

/-- Witness for C8: selling 2 of 4 tokens bought for 4 lamports halves
the cost basis (4 → 2) and leaves `avg_buy_price = 10⁹` on the residual
balance of 2. -/
theorem record_sell_accounting_witness :
    ((⟨4, 0, 4, 4, 0, 0, 0, 1, 0, 1000000000, 4⟩ : UserPosition).record_sell 2 1 0) =
      ⟨4, 2, 2, 4, 1, 0, 0, 1, 1, 1000000000, 2⟩ ∧
    (2 : Nat) = 4 - 4 * (2 * 1000000000 / 4) / 1000000000 := by
  have h := record_sell_accounting ⟨4, 0, 4, 4, 0, 0, 0, 1, 0, 1000000000, 4⟩ 2 1 0
    (by decide) (by decide) (by decide) (by decide) (by decide) (by decide)
  exact ⟨by decide, by rw [← h.2.2.2.1]; decide⟩

/-- Counterexample for C8 as stated: (i) with `tokens_bought = 3`,
`cost_basis = 3`, selling 1 token leaves the cost basis at 3, whereas the
claimed single-floor reduction `⌊3·1/3⌋ = 1` would leave 2 — the code's
double flooring of `⌊1·10⁹/3⌋ = 333333333` loses the reduction entirely;
(ii) selling 5 tokens against a balance of 3 is not rejected: the
balance saturates to 0. -/
theorem record_sell_accounting_cex :
    ((⟨3, 0, 3, 3, 0, 0, 0, 1, 0, 1000000000, 3⟩ : UserPosition).record_sell 1 1 0).cost_basis
      = 3 ∧
    (3 : Nat) - 3 * 1 / 3 = 2 ∧
    ((⟨3, 0, 3, 3, 0, 0, 0, 1, 0, 1000000000, 3⟩ : UserPosition).record_sell 5 1 0).token_balance
      = 0 := by decide

/-- C5: the price↔bin round trip is broken, contradicting both the claim
and the program's own unit test (`test_bin_index_to_price_roundtrip`,
which asserts `|recovered - b| ≤ 1` for `bin_step_bps = 25` over exactly
these bins): `pow_q64` overflows u128 on any exponent ≥ 2 (every
intermediate product of two values ≥ `2^64` wraps), `Q64².Q64²`
reciprocals wrap to zero, and the bit-level `ln` approximation collapses
all of `[1, 2)` to zero — so bin 0 round-trips to 93, and bins ±100 to
`i32::MIN`, instead of within ±1. -/
theorem bin_roundtrip_failure :
    price_to_bin_index (bin_index_to_price 0 25) 25 = 93 ∧
    price_to_bin_index (bin_index_to_price 100 25) 25 = -2147483648 ∧
    price_to_bin_index (bin_index_to_price (-100) 25) 25 = -2147483648 ∧
    ¬ ((93 : Int) - 0).natAbs ≤ 1 ∧
    ¬ ((-2147483648 : Int) - 100).natAbs ≤ 1 ∧
    ¬ ((-2147483648 : Int) - (-100)).natAbs ≤ 1 := by decide

/-- C6 (amended): for every active bin (with `active ± n` inside the
`i32` range), `bins_per_side = n > 0` and `u64` budgets, the balanced
distribution returns parallel arrays of length `2n+1`; the `n` bins
strictly below evenly share 40 % of `total_base`, the `n` bins strictly
above evenly share 40 % of `total_quote`, and the active bin receives
10 % of each budget (the 20 % split evenly between the two sides'
assets).  The allocations therefore sum to one half of the combined
budgets within integer rounding — not to the full budgets, as the
original claim asserted (see the counterexample): `200·sum ≤
100·(total_base + total_quote) ≤ 200·sum + 400n + 398`. -/
theorem balanced_distribution_shape
    (active : Int) (n tb tq : Nat) (hn : 0 < n) (htb : tb < U64) (htq : tq < U64)
    (hlo : -(2147483648 : Int) ≤ active - n) (hhi : active + n < 2147483648) :
    (calculate_balanced_distribution active n tb tq).1.length = 2 * n + 1 ∧
    (calculate_balanced_distribution active n tb tq).2.length = 2 * n + 1 ∧
    (calculate_balanced_distribution active n tb tq).1 = expectedBinIds active n ∧
    (calculate_balanced_distribution active n tb tq).2 = expectedAmounts n tb tq ∧
    (calculate_balanced_distribution active n tb tq).2.sum =
      n * (tb * 40 / 100 / n) + (tb * 20 / 200 + tq * 20 / 200) +
        n * (tq * 40 / 100 / n) ∧
    200 * (calculate_balanced_distribution active n tb tq).2.sum ≤ 100 * (tb + tq) ∧
    100 * (tb + tq) ≤
      200 * (calculate_balanced_distribution active n tb tq).2.sum + 400 * n + 398 := by
  have hids : (calculate_balanced_distribution active n tb tq).1 =
      expectedBinIds active n := by
    simp only [calculate_balanced_distribution, expectedBinIds]
    have h2n : 2 * n + 1 = n + (n + 1) := by omega
    rw [h2n, List.range_add, List.map_append, List.map_map]
    congr 1
    · refine List.map_congr_left ?_
      intro j hj
      have hj' : j < n := List.mem_range.mp hj
      have hc : ((n - j : Nat) : Int) = (n : Int) - (j : Int) := by
        push_cast [Nat.cast_sub hj'.le]; ring
      rw [hc, wrap32_eq_self (by omega) (by omega)]
      ring
    · rw [List.range_succ_eq_map, List.map_cons, List.map_map]
      congr 1
      · show active = active - (n : Int) + ((n + 0 : Nat) : Int)
        push_cast; ring
      · refine List.map_congr_left ?_
        intro j hj
        have hj' : j < n := List.mem_range.mp hj
        show wrap32 (active + ((j + 1 : Nat) : Int)) =
          active - (n : Int) + ((n + (j + 1) : Nat) : Int)
        rw [wrap32_eq_self (by push_cast; omega) (by push_cast; omega)]
        push_cast; ring
  have hbp : tb * 40 / 100 / n < U64 := by
    have : tb * 40 / 100 / n ≤ tb * 40 / 100 := Nat.div_le_self _ _
    have : tb * 40 / 100 ≤ tb := by
      calc tb * 40 / 100 ≤ tb * 100 / 100 :=
            Nat.div_le_div_right (Nat.mul_le_mul_left tb (by omega))
      _ = tb := by omega
    omega
  have hqp : tq * 40 / 100 / n < U64 := by
    have : tq * 40 / 100 / n ≤ tq * 40 / 100 := Nat.div_le_self _ _
    have : tq * 40 / 100 ≤ tq := by
      calc tq * 40 / 100 ≤ tq * 100 / 100 :=
            Nat.div_le_div_right (Nat.mul_le_mul_left tq (by omega))
      _ = tq := by omega
    omega
  have hmid : tb * 20 / 200 + tq * 20 / 200 < U64 := by
    have h1 : tb * 20 / 200 ≤ tb := by
      calc tb * 20 / 200 ≤ tb * 200 / 200 :=
            Nat.div_le_div_right (Nat.mul_le_mul_left tb (by omega))
      _ = tb := by omega
    have h2 : tq * 20 / 200 ≤ tq := by
      calc tq * 20 / 200 ≤ tq * 200 / 200 :=
            Nat.div_le_div_right (Nat.mul_le_mul_left tq (by omega))
      _ = tq := by omega
    have h3 : tb * 20 / 200 ≤ tb * 20 / 200 := le_refl _
    have h4 : tb * 20 / 200 * 10 ≤ tb * 20 / 20 := by
      calc tb * 20 / 200 * 10 ≤ tb * 20 * 10 / 200 := div_mul_le_mul_div _ _ _
      _ = tb * 200 / 200 := by ring_nf
      _ = tb := by omega
      _ ≤ tb * 20 / 20 := by omega
    have h5 : tq * 20 / 200 * 10 ≤ tq := by
      calc tq * 20 / 200 * 10 ≤ tq * 20 * 10 / 200 := div_mul_le_mul_div _ _ _
      _ = tq * 200 / 200 := by ring_nf
      _ = tq := by omega
    omega
  have hamts : (calculate_balanced_distribution active n tb tq).2 =
      expectedAmounts n tb tq := by
    simp only [calculate_balanced_distribution, expectedAmounts, BASE_ALLOCATION_PCT,
      QUOTE_ALLOCATION_PCT, ACTIVE_BIN_PCT, if_pos hn]
    rw [Nat.mod_eq_of_lt hbp, Nat.mod_eq_of_lt hqp, Nat.mod_eq_of_lt hmid]
  have hsum : (calculate_balanced_distribution active n tb tq).2.sum =
      n * (tb * 40 / 100 / n) + (tb * 20 / 200 + tq * 20 / 200) +
        n * (tq * 40 / 100 / n) := by
    rw [hamts]
    simp [expectedAmounts, List.sum_append, List.sum_cons, List.sum_replicate,
      smul_eq_mul]
    ring
  have e1 := Nat.div_add_mod (tb * 40) 100
  have e2 := Nat.div_add_mod (tb * 40 / 100) n
  have e3 := Nat.div_add_mod (tb * 20) 200
  have e4 := Nat.div_add_mod (tq * 40) 100
  have e5 := Nat.div_add_mod (tq * 40 / 100) n
  have e6 := Nat.div_add_mod (tq * 20) 200
  have m1 : tb * 40 % 100 < 100 := Nat.mod_lt _ (by omega)
  have m2 : tb * 40 / 100 % n < n := Nat.mod_lt _ hn
  have m3 : tb * 20 % 200 < 200 := Nat.mod_lt _ (by omega)
  have m4 : tq * 40 % 100 < 100 := Nat.mod_lt _ (by omega)
  have m5 : tq * 40 / 100 % n < n := Nat.mod_lt _ hn
  have m6 : tq * 20 % 200 < 200 := Nat.mod_lt _ (by omega)
  refine ⟨?_, ?_, hids, hamts, hsum, ?_, ?_⟩
  · rw [hids]
    simp [expectedBinIds]
  · rw [hamts]
    simp [expectedAmounts]
    omega
  · rw [hsum]; omega
  · rw [hsum]; omega

/-- Witness for C6: one bin per side with budgets 1000/1000 yields bins
`[-1, 0, 1]` with amounts `[400, 200, 400]` — 40 % below, 10 % + 10 % in
the active bin, 40 % above — summing to 1000, half the combined
budgets. -/
theorem balanced_distribution_shape_witness :
    (calculate_balanced_distribution 0 1 1000 1000).1 = [-1, 0, 1] ∧
    (calculate_balanced_distribution 0 1 1000 1000).2 = [400, 200, 400] ∧
    (calculate_balanced_distribution 0 1 1000 1000).2.sum = 1000 ∧
    200 * (calculate_balanced_distribution 0 1 1000 1000).2.sum ≤
      100 * (1000 + 1000) ∧
    100 * (1000 + 1000) ≤
      200 * (calculate_balanced_distribution 0 1 1000 1000).2.sum + 400 * 1 + 398 := by
  have h := balanced_distribution_shape 0 1 1000 1000 (by decide) (by decide)
    (by decide) (by decide) (by decide)
  exact ⟨h.2.2.1.trans (by decide), h.2.2.2.1.trans (by decide),
    h.2.2.2.2.1.trans (by decide), h.2.2.2.2.2.1, h.2.2.2.2.2.2⟩

/-- Counterexample for C6 as stated: with one bin per side and budgets
`total_base = total_quote = 1000`, the output allocations sum to 1000
against combined budgets of 2000 — a deficit of 1000, far beyond any
integer-rounding tolerance (at most one unit per bin, i.e. 3 here), so
the claimed conservation of the full budgets fails. -/
theorem balanced_distribution_conservation_cex :
    (calculate_balanced_distribution 0 1 1000 1000).2.sum = 1000 ∧
    (1000 : Nat) + (2 * 1 + 1) < 1000 + 1000 := by decide

end Launchr
